import Mathlib

/-!
Shallow embedding of the employee-performance-tracker backend
(src/backend/main.py, models.py, schemas.py, auth_utils.py).

The database is modelled as explicit lists of rows; SQLAlchemy's
`query(...).filter(Model.id == x).first()` becomes `List.find?`, and
`query(...).all()` with a filter becomes `List.filter`.  Each FastAPI
handler becomes a pure function from the database, the already-decoded
calling user (the `Depends` chain is modelled by `requireActive`,
`requireAdmin`, `requireAdminOrManager`, mirroring
`get_current_active_user`, `get_current_admin`,
`get_current_admin_or_manager`) and the request payload to
`Except ApiError result`, where a mutation returns the new database.
-/

namespace EPT

/-- HTTP error outcomes used by the handlers (`HTTPException` status codes). -/
inductive ApiError where
  | unauthorized
  | forbidden
  | notFound
  | badRequest
deriving Repr, DecidableEq

/-- models.Employee (models.py lines 7-34). Dates and ids are `Nat`. -/
structure Employee where
  id : Nat
  name : String
  email : String
  role : Option String
  department : Option String
  status : String
deriving Repr, DecidableEq

/-- models.Goal (models.py lines 37-53). `start_date`/`end_date` are abstract day numbers. -/
structure Goal where
  id : Nat
  title : String
  description : Option String
  start_date : Option Int
  end_date : Option Int
  status : String
  progress : Int
  employee_id : Nat
deriving Repr, DecidableEq

/-- models.PerformanceReview (models.py lines 56-66). -/
structure PerformanceReview where
  id : Nat
  month : String
  rating : Int
  feedback : Option String
  reviewer_name : String
  employee_id : Nat
deriving Repr, DecidableEq

/-- models.User (models.py lines 72-93): the authenticable Identity. -/
structure User where
  id : Nat
  name : String
  email : String
  password_hash : String
  role : String
  is_active : Bool
  employee_id : Option Nat
deriving Repr, DecidableEq

/-- The relational store: one list per table plus autoincrement counters
for the surrogate primary keys. -/
structure DB where
  employees : List Employee
  goals : List Goal
  reviews : List PerformanceReview
  users : List User
  nextEmployeeId : Nat
  nextGoalId : Nat
  nextReviewId : Nat
  nextUserId : Nat
deriving Repr, DecidableEq

/-- Primary keys are unique in every table (what the relational store
guarantees for `Column(..., primary_key=True)`). -/
def DB.wf (db : DB) : Prop :=
  (db.employees.map Employee.id).Nodup ∧
  (db.goals.map Goal.id).Nodup ∧
  (db.reviews.map PerformanceReview.id).Nodup ∧
  (db.users.map User.id).Nodup

instance (db : DB) : Decidable db.wf := by
  unfold DB.wf; infer_instance

/-- `get_current_active_user` (main.py lines 86-97): reject inactive users
with Forbidden, otherwise pass the user through. -/
def requireActive (u : User) : Except ApiError User :=
  if u.is_active then .ok u else .error .forbidden

/-- `get_current_admin` (main.py lines 100-111): active check, then the
role must be exactly "admin". -/
def requireAdmin (u : User) : Except ApiError User :=
  match requireActive u with
  | .error e => .error e
  | .ok u => if u.role == "admin" then .ok u else .error .forbidden

/-- `get_current_admin_or_manager` (main.py lines 113-124): active check,
then the role must be "admin" or "manager". -/
def requireAdminOrManager (u : User) : Except ApiError User :=
  match requireActive u with
  | .error e => .error e
  | .ok u =>
    if u.role == "admin" || u.role == "manager" then .ok u
    else .error .forbidden

/-- schemas.EmployeeCreate / EmployeeUpdate (schemas.py lines 10-23). -/
structure EmployeeCreate where
  name : String
  email : String
  role : Option String
  department : Option String
  status : String
deriving Repr, DecidableEq

/-- schemas.GoalCreate (schemas.py lines 36-48). -/
structure GoalCreate where
  title : String
  description : Option String
  start_date : Option Int
  end_date : Option Int
  status : String
  employee_id : Nat
  progress : Int
deriving Repr, DecidableEq

/-- schemas.GoalUpdate (schemas.py lines 51-58): every field optional;
`none` means "field not supplied". -/
structure GoalUpdate where
  title : Option String
  description : Option String
  start_date : Option Int
  end_date : Option Int
  status : Option String
  employee_id : Option Nat
  progress : Option Int
deriving Repr, DecidableEq

/-- schemas.ReviewCreate (schemas.py lines 71-81). -/
structure ReviewCreate where
  month : String
  rating : Int
  feedback : Option String
  reviewer_name : String
  employee_id : Nat
deriving Repr, DecidableEq

/-- schemas.ReviewUpdate (schemas.py lines 84-89). -/
structure ReviewUpdate where
  month : Option String
  rating : Option Int
  feedback : Option String
  reviewer_name : Option String
  employee_id : Option Nat
deriving Repr, DecidableEq

/-- schemas.UserCreate (schemas.py lines 102-116). -/
structure UserCreate where
  name : String
  email : String
  role : String
  is_active : Bool
  employee_id : Option Nat
  password : String
deriving Repr, DecidableEq

/-- auth_utils.hash_password delegates to passlib (external collaborator);
modelled as an injective tagging function, unused by any decision logic. -/
def hash_password (password : String) : String :=
  "pbkdf2_sha256$" ++ password

/-! ## EMPLOYEES CRUD (main.py lines 263-455) -/

/-- `list_employees` (main.py lines 263-297). -/
def list_employees (db : DB) (u0 : User) : Except ApiError (List Employee) :=
  match requireActive u0 with
  | .error e => .error e
  | .ok u =>
    if u.role == "admin" || u.role == "manager" then
      .ok db.employees
    else if u.role == "employee" then
      match u.employee_id with
      | none => .ok []
      | some eid =>
        match db.employees.find? (fun e => e.id == eid) with
        | none => .ok []
        | some e => .ok [e]
    else .error .forbidden

/-- `get_employee` (main.py lines 300-340): existence check first, then role. -/
def get_employee (db : DB) (u0 : User) (employee_id : Nat) :
    Except ApiError Employee :=
  match requireActive u0 with
  | .error e => .error e
  | .ok u =>
    match db.employees.find? (fun e => e.id == employee_id) with
    | none => .error .notFound
    | some employee =>
      if u.role == "admin" || u.role == "manager" then .ok employee
      else if u.role == "employee" then
        if u.employee_id == some employee_id then .ok employee
        else .error .forbidden
      else .error .forbidden

/-- `create_employee` (main.py lines 343-380): admin/manager only
(via the `get_current_admin_or_manager` dependency), duplicate email is
BadRequest, id assigned by the store. -/
def create_employee (db : DB) (u0 : User) (employee_in : EmployeeCreate) :
    Except ApiError (DB × Employee) :=
  match requireAdminOrManager u0 with
  | .error e => .error e
  | .ok _ =>
    match db.employees.find? (fun e => e.email == employee_in.email) with
    | some _ => .error .badRequest
    | none =>
      let employee : Employee :=
        { id := db.nextEmployeeId
          name := employee_in.name
          email := employee_in.email
          role := employee_in.role
          department := employee_in.department
          status := employee_in.status }
      .ok ({ db with
              employees := db.employees ++ [employee]
              nextEmployeeId := db.nextEmployeeId + 1 }, employee)

/-- `update_employee` (main.py lines 383-427): admin/manager only;
404 on missing id, BadRequest when changing the email to one another
employee already holds; all five fields are overwritten. -/
def update_employee (db : DB) (u0 : User) (employee_id : Nat)
    (employee_in : EmployeeCreate) : Except ApiError (DB × Employee) :=
  match requireAdminOrManager u0 with
  | .error e => .error e
  | .ok _ =>
    match db.employees.find? (fun e => e.id == employee_id) with
    | none => .error .notFound
    | some employee =>
      let dup :=
        if employee.email != employee_in.email then
          (db.employees.find? (fun e => e.email == employee_in.email)).isSome
        else false
      if dup then .error .badRequest
      else
        let employee2 : Employee :=
          { employee with
              name := employee_in.name
              email := employee_in.email
              role := employee_in.role
              department := employee_in.department
              status := employee_in.status }
        .ok ({ db with
                employees :=
                  db.employees.map
                    (fun e => if e.id == employee_id then employee2 else e) },
             employee2)

/-- `delete_employee` (main.py lines 430-455) together with the
`cascade="all, delete-orphan"` declarations on Employee.goals and
Employee.reviews (models.py lines 18-27): deleting an employee also
deletes every goal and review owning-referenced to it. -/
def delete_employee (db : DB) (u0 : User) (employee_id : Nat) :
    Except ApiError DB :=
  match requireAdminOrManager u0 with
  | .error e => .error e
  | .ok _ =>
    match db.employees.find? (fun e => e.id == employee_id) with
    | none => .error .notFound
    | some _ =>
      .ok { db with
              employees := db.employees.filter (fun e => e.id != employee_id)
              goals := db.goals.filter (fun g => g.employee_id != employee_id)
              reviews :=
                db.reviews.filter (fun r => r.employee_id != employee_id) }

/-! ## GOALS CRUD (main.py lines 465-697) -/

/-- `list_goals` (main.py lines 465-493). -/
def list_goals (db : DB) (u0 : User) : Except ApiError (List Goal) :=
  match requireActive u0 with
  | .error e => .error e
  | .ok u =>
    if u.role == "admin" || u.role == "manager" then
      .ok db.goals
    else if u.role == "employee" then
      match u.employee_id with
      | none => .ok []
      | some eid => .ok (db.goals.filter (fun g => g.employee_id == eid))
    else .error .forbidden

/-- `get_goal` (main.py lines 496-529): existence check first, then role,
then ownership for employee-role callers. -/
def get_goal (db : DB) (u0 : User) (goal_id : Nat) : Except ApiError Goal :=
  match requireActive u0 with
  | .error e => .error e
  | .ok u =>
    match db.goals.find? (fun g => g.id == goal_id) with
    | none => .error .notFound
    | some goal =>
      if u.role == "admin" || u.role == "manager" then .ok goal
      else if u.role == "employee" then
        if u.employee_id == some goal.employee_id then .ok goal
        else .error .forbidden
      else .error .forbidden

/-- `create_goal` (main.py lines 532-590): employee-role callers need a
linked employee (else BadRequest) matching the requested owner (else
Forbidden); unknown roles Forbidden; then the owner must exist (else
BadRequest). -/
def create_goal (db : DB) (u0 : User) (goal_in : GoalCreate) :
    Except ApiError (DB × Goal) :=
  match requireActive u0 with
  | .error e => .error e
  | .ok u =>
    let roleCheck : Except ApiError Unit :=
      if u.role == "employee" then
        match u.employee_id with
        | none => .error .badRequest
        | some eid =>
          if goal_in.employee_id != eid then .error .forbidden else .ok ()
      else if u.role == "admin" || u.role == "manager" then .ok ()
      else .error .forbidden
    match roleCheck with
    | .error e => .error e
    | .ok _ =>
      match db.employees.find? (fun e => e.id == goal_in.employee_id) with
      | none => .error .badRequest
      | some _ =>
        let goal : Goal :=
          { id := db.nextGoalId
            title := goal_in.title
            description := goal_in.description
            start_date := goal_in.start_date
            end_date := goal_in.end_date
            status := goal_in.status
            progress := goal_in.progress
            employee_id := goal_in.employee_id }
        .ok ({ db with
                goals := db.goals ++ [goal]
                nextGoalId := db.nextGoalId + 1 }, goal)

/-- `update_goal` (main.py lines 593-667): admin/manager may set every
field (reassignment requires the new owner to exist); an employee-role
caller may touch only progress and status of their own goal. -/
def update_goal (db : DB) (u0 : User) (goal_id : Nat) (goal_in : GoalUpdate) :
    Except ApiError (DB × Goal) :=
  match requireActive u0 with
  | .error e => .error e
  | .ok u =>
    match db.goals.find? (fun g => g.id == goal_id) with
    | none => .error .notFound
    | some goal =>
      if u.role == "admin" || u.role == "manager" then
        let ownerStep : Except ApiError Goal :=
          match goal_in.employee_id with
          | some ne =>
            if ne != goal.employee_id then
              match db.employees.find? (fun e => e.id == ne) with
              | none => .error .badRequest
              | some _ => .ok { goal with employee_id := ne }
            else .ok goal
          | none => .ok goal
        match ownerStep with
        | .error e => .error e
        | .ok goal1 =>
          let goal2 : Goal :=
            { goal1 with
                title := goal_in.title.getD goal1.title
                description :=
                  match goal_in.description with
                  | some d => some d
                  | none => goal1.description
                start_date :=
                  match goal_in.start_date with
                  | some d => some d
                  | none => goal1.start_date
                end_date :=
                  match goal_in.end_date with
                  | some d => some d
                  | none => goal1.end_date
                status := goal_in.status.getD goal1.status
                progress := goal_in.progress.getD goal1.progress }
          .ok ({ db with
                  goals :=
                    db.goals.map
                      (fun g => if g.id == goal_id then goal2 else g) },
               goal2)
      else if u.role == "employee" then
        if u.employee_id != some goal.employee_id then .error .forbidden
        else
          let goal2 : Goal :=
            { goal with
                progress := goal_in.progress.getD goal.progress
                status := goal_in.status.getD goal.status }
          .ok ({ db with
                  goals :=
                    db.goals.map
                      (fun g => if g.id == goal_id then goal2 else g) },
               goal2)
      else .error .forbidden

/-- `delete_goal` (main.py lines 670-697): existence check first, then
only admin/manager may delete. -/
def delete_goal (db : DB) (u0 : User) (goal_id : Nat) : Except ApiError DB :=
  match requireActive u0 with
  | .error e => .error e
  | .ok u =>
    match db.goals.find? (fun g => g.id == goal_id) with
    | none => .error .notFound
    | some _ =>
      if !(u.role == "admin" || u.role == "manager") then .error .forbidden
      else .ok { db with goals := db.goals.filter (fun g => g.id != goal_id) }

/-! ## REVIEWS CRUD (main.py lines 704-947) -/

/-- `list_reviews` (main.py lines 704-732). -/
def list_reviews (db : DB) (u0 : User) :
    Except ApiError (List PerformanceReview) :=
  match requireActive u0 with
  | .error e => .error e
  | .ok u =>
    if u.role == "admin" || u.role == "manager" then
      .ok db.reviews
    else if u.role == "employee" then
      match u.employee_id with
      | none => .ok []
      | some eid => .ok (db.reviews.filter (fun r => r.employee_id == eid))
    else .error .forbidden

/-- `get_review` (main.py lines 735-772). -/
def get_review (db : DB) (u0 : User) (review_id : Nat) :
    Except ApiError PerformanceReview :=
  match requireActive u0 with
  | .error e => .error e
  | .ok u =>
    match db.reviews.find? (fun r => r.id == review_id) with
    | none => .error .notFound
    | some review =>
      if u.role == "admin" || u.role == "manager" then .ok review
      else if u.role == "employee" then
        if u.employee_id == some review.employee_id then .ok review
        else .error .forbidden
      else .error .forbidden

/-- `create_review` (main.py lines 775-832): same role gate shape as
`create_goal`, then existence of the owning employee. -/
def create_review (db : DB) (u0 : User) (review_in : ReviewCreate) :
    Except ApiError (DB × PerformanceReview) :=
  match requireActive u0 with
  | .error e => .error e
  | .ok u =>
    let roleCheck : Except ApiError Unit :=
      if u.role == "employee" then
        match u.employee_id with
        | none => .error .badRequest
        | some eid =>
          if review_in.employee_id != eid then .error .forbidden else .ok ()
      else if u.role == "admin" || u.role == "manager" then .ok ()
      else .error .forbidden
    match roleCheck with
    | .error e => .error e
    | .ok _ =>
      match db.employees.find? (fun e => e.id == review_in.employee_id) with
      | none => .error .badRequest
      | some _ =>
        let review : PerformanceReview :=
          { id := db.nextReviewId
            month := review_in.month
            rating := review_in.rating
            feedback := review_in.feedback
            reviewer_name := review_in.reviewer_name
            employee_id := review_in.employee_id }
        .ok ({ db with
                reviews := db.reviews ++ [review]
                nextReviewId := db.nextReviewId + 1 }, review)

/-- `update_review` (main.py lines 835-913): admin/manager may set every
field (owner reassignment requires the new owner to exist); an
employee-role caller may touch only month, rating, feedback and
reviewer_name of their own review. -/
def update_review (db : DB) (u0 : User) (review_id : Nat)
    (review_in : ReviewUpdate) : Except ApiError (DB × PerformanceReview) :=
  match requireActive u0 with
  | .error e => .error e
  | .ok u =>
    match db.reviews.find? (fun r => r.id == review_id) with
    | none => .error .notFound
    | some review =>
      if u.role == "admin" || u.role == "manager" then
        let ownerStep : Except ApiError PerformanceReview :=
          match review_in.employee_id with
          | some ne =>
            if ne != review.employee_id then
              match db.employees.find? (fun e => e.id == ne) with
              | none => .error .badRequest
              | some _ => .ok { review with employee_id := ne }
            else .ok review
          | none => .ok review
        match ownerStep with
        | .error e => .error e
        | .ok review1 =>
          let review2 : PerformanceReview :=
            { review1 with
                month := review_in.month.getD review1.month
                rating := review_in.rating.getD review1.rating
                feedback :=
                  match review_in.feedback with
                  | some f => some f
                  | none => review1.feedback
                reviewer_name :=
                  review_in.reviewer_name.getD review1.reviewer_name }
          .ok ({ db with
                  reviews :=
                    db.reviews.map
                      (fun r => if r.id == review_id then review2 else r) },
               review2)
      else if u.role == "employee" then
        if u.employee_id != some review.employee_id then .error .forbidden
        else
          let review2 : PerformanceReview :=
            { review with
                month := review_in.month.getD review.month
                rating := review_in.rating.getD review.rating
                feedback :=
                  match review_in.feedback with
                  | some f => some f
                  | none => review.feedback
                reviewer_name :=
                  review_in.reviewer_name.getD review.reviewer_name }
          .ok ({ db with
                  reviews :=
                    db.reviews.map
                      (fun r => if r.id == review_id then review2 else r) },
               review2)
      else .error .forbidden

/-- `delete_review` (main.py lines 916-947): existence check first, then
only admin/manager may delete. -/
def delete_review (db : DB) (u0 : User) (review_id : Nat) :
    Except ApiError DB :=
  match requireActive u0 with
  | .error e => .error e
  | .ok u =>
    match db.reviews.find? (fun r => r.id == review_id) with
    | none => .error .notFound
    | some _ =>
      if !(u.role == "admin" || u.role == "manager") then .error .forbidden
      else
        .ok { db with reviews := db.reviews.filter (fun r => r.id != review_id) }

/-! ## USERS (main.py lines 145-204) -/

/-- `create_user` (main.py lines 150-191): admin only; duplicate user
email is BadRequest; when an employee link is requested the employee must
exist (else BadRequest).  Note the code never checks whether another User
already links the same employee. -/
def create_user (db : DB) (u0 : User) (user_in : UserCreate) :
    Except ApiError (DB × User) :=
  match requireAdmin u0 with
  | .error e => .error e
  | .ok _ =>
    match db.users.find? (fun u => u.email == user_in.email) with
    | some _ => .error .badRequest
    | none =>
      let linkCheck : Except ApiError Unit :=
        match user_in.employee_id with
        | none => .ok ()
        | some eid =>
          match db.employees.find? (fun e => e.id == eid) with
          | none => .error .badRequest
          | some _ => .ok ()
      match linkCheck with
      | .error e => .error e
      | .ok _ =>
        let user : User :=
          { id := db.nextUserId
            name := user_in.name
            email := user_in.email
            password_hash := hash_password user_in.password
            role := user_in.role
            is_active := user_in.is_active
            employee_id := user_in.employee_id }
        .ok ({ db with
                users := db.users ++ [user]
                nextUserId := db.nextUserId + 1 }, user)

/-! ## AUTHENTICATION GATE (main.py lines 51-97, auth_utils.py lines 45-50)

The Credential Verifier (python-jose) is an external collaborator; its
contract, documented in auth_utils.py's `decode_access_token` docstring,
is "decode and verify a JWT token; raises JWTError if invalid/expired".
A presented token is therefore modelled by which of the verifier's
verdicts it falls under: malformed, bad signature, expired (regardless of
signature validity), or valid with a decoded claims payload. -/

/-- The decoded claims mapping; only the `user_id` claim is consulted by
the gate, and `payload.get("user_id")` may be absent (`none`). -/
structure TokenPayload where
  user_id : Option Nat
deriving Repr, DecidableEq

/-- The verifier's classification of a presented token string. -/
inductive TokenString where
  | malformed
  | badSignature (payload : TokenPayload)
  | expired (payload : TokenPayload)
  | valid (payload : TokenPayload)
deriving Repr, DecidableEq

/-- JWTError outcome of `decode_access_token` (auth_utils.py lines 45-50):
any of malformed / bad signature / expired raises; only a valid unexpired
token yields its payload. -/
def decode_access_token (t : TokenString) : Except Unit TokenPayload :=
  match t with
  | .malformed => .error ()
  | .badSignature _ => .error ()
  | .expired _ => .error ()
  | .valid payload => .ok payload

/-- The bearer token as presented on the request: absent, or a token
string to be classified by the verifier. -/
inductive RawToken where
  | missing
  | present (t : TokenString)
deriving Repr, DecidableEq

/-- `get_current_user` (main.py lines 51-82).  The rejection of a missing
Authorization header happens in the framework's security dependency
before the handler; modelled from the spec: a missing token fails with
Unauthorized.  Decode failures, an absent user_id claim and an
unresolvable user id are all Unauthorized (the shared
`credentials_exception`). -/
def get_current_user (db : DB) (tok : RawToken) : Except ApiError User :=
  match tok with
  | .missing => .error .unauthorized
  | .present t =>
    match decode_access_token t with
    | .error _ => .error .unauthorized
    | .ok payload =>
      match payload.user_id with
      | none => .error .unauthorized
      | some uid =>
        match db.users.find? (fun u => u.id == uid) with
        | none => .error .unauthorized
        | some user => .ok user

/-- `get_current_active_user` (main.py lines 86-97) on top of the token
gate: an inactive resolved user is Forbidden. -/
def get_current_active_user (db : DB) (tok : RawToken) :
    Except ApiError User :=
  match get_current_user db tok with
  | .error e => .error e
  | .ok user => if user.is_active then .ok user else .error .forbidden

/-! ## Helper lemmas -/

/-- In a list whose `f`-projections are pairwise distinct, `find?` on
`f x == k` returns any member whose projection is `k`. -/
theorem find_proj_eq_some_of_mem {α : Type} (f : α → Nat) :
    ∀ (l : List α) (k : Nat) (a : α), (l.map f).Nodup → a ∈ l → f a = k →
      l.find? (fun x => f x == k) = some a := by
  intro l
  induction l with
  | nil => intro k a _ ha _; exact absurd ha (List.not_mem_nil a)
  | cons h t ih =>
    intro k a hnd ha hfa
    simp only [List.map_cons, List.nodup_cons] at hnd
    rcases List.mem_cons.mp ha with rfl | hat
    · have : (f a == k) = true := beq_iff_eq.mpr hfa
      simp [List.find?_cons_of_pos, this]
    · have hfh : (f h == k) = false := by
        apply beq_eq_false_iff_ne.mpr
        intro he
        exact hnd.1 (by
          have : f a ∈ t.map f := List.mem_map_of_mem f hat
          rwa [hfa, ← he] at this)
      rw [List.find?_cons_of_neg _ (by simp [hfh]), ih k a hnd.2 hat hfa]

/-! ## Claim theorems -/

/-- C10: for Goal and PerformanceReview by-id operations (read, update,
delete), the existence check precedes the authorization check: any
authenticated active caller, of any role, requesting a non-existent id
gets NotFound, never Forbidden. -/
theorem C10_notfound_precedes_authorization
    (db : DB) (u : User) (hact : u.is_active = true) :
    (∀ gid, db.goals.find? (fun g => g.id == gid) = none →
      get_goal db u gid = .error .notFound ∧
      (∀ gin, update_goal db u gid gin = .error .notFound) ∧
      delete_goal db u gid = .error .notFound) ∧
    (∀ rid, db.reviews.find? (fun r => r.id == rid) = none →
      get_review db u rid = .error .notFound ∧
      (∀ rin, update_review db u rid rin = .error .notFound) ∧
      delete_review db u rid = .error .notFound) := by
  constructor
  · intro gid hfind
    refine ⟨?_, fun gin => ?_, ?_⟩ <;>
      simp [get_goal, update_goal, delete_goal, requireActive, hact, hfind]
  · intro rid hfind
    refine ⟨?_, fun rin => ?_, ?_⟩ <;>
      simp [get_review, update_review, delete_review, requireActive, hact, hfind]

/-- Witness for C10 on a concrete store and caller. -/
theorem C10_notfound_precedes_authorization_witness :
    get_goal
      { employees := [], goals := [], reviews := [], users := [],
        nextEmployeeId := 1, nextGoalId := 1, nextReviewId := 1,
        nextUserId := 1 }
      { id := 1, name := "w", email := "w@x", password_hash := "h",
        role := "auditor", is_active := true, employee_id := none }
      5 = .error .notFound := by
  have h :=
    C10_notfound_precedes_authorization
      { employees := [], goals := [], reviews := [], users := [],
        nextEmployeeId := 1, nextGoalId := 1, nextReviewId := 1,
        nextUserId := 1 }
      { id := 1, name := "w", email := "w@x", password_hash := "h",
        role := "auditor", is_active := true, employee_id := none }
      rfl
  exact (h.1 5 rfl).1

/-- C5: an active employee-role caller can never delete: deleting an
Employee is Forbidden outright (the admin-or-manager dependency runs
first), and deleting an existing Goal or PerformanceReview — including
one owned by the caller's own linked employee — is Forbidden.  Mutations
are modelled by the returned store, so an error outcome leaves every row
in place by construction; the targeted row is moreover shown still to be
a member of the (unchanged) store. -/
theorem C5_employee_cannot_delete
    (db : DB) (u : User) (hact : u.is_active = true)
    (hrole : u.role = "employee") :
    (∀ eid, delete_employee db u eid = .error .forbidden) ∧
    (∀ gid g, db.goals.find? (fun x => x.id == gid) = some g →
      delete_goal db u gid = .error .forbidden ∧ g ∈ db.goals) ∧
    (∀ rid r, db.reviews.find? (fun x => x.id == rid) = some r →
      delete_review db u rid = .error .forbidden ∧ r ∈ db.reviews) := by
  refine ⟨fun eid => ?_, fun gid g hfind => ⟨?_, ?_⟩,
          fun rid r hfind => ⟨?_, ?_⟩⟩
  · simp [delete_employee, requireAdminOrManager, requireActive, hact, hrole]
  · simp [delete_goal, requireActive, hact, hrole, hfind]
  · exact List.mem_of_find?_eq_some hfind
  · simp [delete_review, requireActive, hact, hrole, hfind]
  · exact List.mem_of_find?_eq_some hfind

/-- Witness for C5: a concrete employee caller, a goal and a review it
owns, and an employee row; all three deletes are Forbidden. -/
theorem C5_employee_cannot_delete_witness :
    delete_employee
        { employees := [⟨1, "Jo", "jo@co", none, none, "active"⟩],
          goals := [⟨5, "G", none, none, none, "in-progress", 0, 1⟩],
          reviews := [⟨7, "2025-01", 4, none, "Jo", 1⟩],
          users := [], nextEmployeeId := 2, nextGoalId := 6,
          nextReviewId := 8, nextUserId := 1 }
        { id := 9, name := "jo", email := "jo@u", password_hash := "h",
          role := "employee", is_active := true, employee_id := some 1 }
        1 = .error .forbidden ∧
    delete_goal
        { employees := [⟨1, "Jo", "jo@co", none, none, "active"⟩],
          goals := [⟨5, "G", none, none, none, "in-progress", 0, 1⟩],
          reviews := [⟨7, "2025-01", 4, none, "Jo", 1⟩],
          users := [], nextEmployeeId := 2, nextGoalId := 6,
          nextReviewId := 8, nextUserId := 1 }
        { id := 9, name := "jo", email := "jo@u", password_hash := "h",
          role := "employee", is_active := true, employee_id := some 1 }
        5 = .error .forbidden ∧
    delete_review
        { employees := [⟨1, "Jo", "jo@co", none, none, "active"⟩],
          goals := [⟨5, "G", none, none, none, "in-progress", 0, 1⟩],
          reviews := [⟨7, "2025-01", 4, none, "Jo", 1⟩],
          users := [], nextEmployeeId := 2, nextGoalId := 6,
          nextReviewId := 8, nextUserId := 1 }
        { id := 9, name := "jo", email := "jo@u", password_hash := "h",
          role := "employee", is_active := true, employee_id := some 1 }
        7 = .error .forbidden := by
  have h :=
    C5_employee_cannot_delete
      { employees := [⟨1, "Jo", "jo@co", none, none, "active"⟩],
        goals := [⟨5, "G", none, none, none, "in-progress", 0, 1⟩],
        reviews := [⟨7, "2025-01", 4, none, "Jo", 1⟩],
        users := [], nextEmployeeId := 2, nextGoalId := 6,
        nextReviewId := 8, nextUserId := 1 }
      { id := 9, name := "jo", email := "jo@u", password_hash := "h",
        role := "employee", is_active := true, employee_id := some 1 }
      rfl rfl
  exact ⟨h.1 1,
         (h.2.1 5 ⟨5, "G", none, none, none, "in-progress", 0, 1⟩ rfl).1,
         (h.2.2 7 ⟨7, "2025-01", 4, none, "Jo", 1⟩ rfl).1⟩

/-- C6: the authentication gate yields Unauthorized on a missing,
malformed, bad-signature or expired token (the last regardless of the
signature), on a payload without a user_id claim, and on a user_id that
resolves to no stored Identity; it yields Forbidden when the resolved
Identity is inactive; otherwise it produces the resolved Identity. -/
theorem C6_authentication_gate (db : DB) (p : TokenPayload) :
    get_current_active_user db .missing = .error .unauthorized ∧
    get_current_active_user db (.present .malformed) = .error .unauthorized ∧
    get_current_active_user db (.present (.badSignature p)) =
      .error .unauthorized ∧
    get_current_active_user db (.present (.expired p)) =
      .error .unauthorized ∧
    (p.user_id = none →
      get_current_active_user db (.present (.valid p)) =
        .error .unauthorized) ∧
    (∀ uid, p.user_id = some uid →
      db.users.find? (fun u => u.id == uid) = none →
      get_current_active_user db (.present (.valid p)) =
        .error .unauthorized) ∧
    (∀ uid u, p.user_id = some uid →
      db.users.find? (fun x => x.id == uid) = some u →
      u.is_active = false →
      get_current_active_user db (.present (.valid p)) =
        .error .forbidden) ∧
    (∀ uid u, p.user_id = some uid →
      db.users.find? (fun x => x.id == uid) = some u →
      u.is_active = true →
      get_current_active_user db (.present (.valid p)) = .ok u) := by
  refine ⟨rfl, rfl, rfl, rfl, fun hnone => ?_, fun uid huid hfind => ?_,
          fun uid u huid hfind hina => ?_,
          fun uid u huid hfind hact => ?_⟩
  · simp only [get_current_active_user, get_current_user,
               decode_access_token, hnone]
  · simp only [get_current_active_user, get_current_user,
               decode_access_token, huid, hfind]
  · simp [get_current_active_user, get_current_user,
          decode_access_token, huid, hfind, hina]
  · simp [get_current_active_user, get_current_user,
          decode_access_token, huid, hfind, hact]

/-- Witness for C6: one concrete store exercising the hypothesis-bearing
branches — no-user_id payload, unresolvable id, inactive user, and a
successful resolution. -/
theorem C6_authentication_gate_witness :
    get_current_active_user
        { employees := [], goals := [], reviews := [],
          users := [⟨3, "a", "a@u", "h", "admin", true, none⟩,
                    ⟨4, "b", "b@u", "h", "employee", false, none⟩],
          nextEmployeeId := 1, nextGoalId := 1, nextReviewId := 1,
          nextUserId := 5 }
        (.present (.valid ⟨none⟩)) = .error .unauthorized ∧
    get_current_active_user
        { employees := [], goals := [], reviews := [],
          users := [⟨3, "a", "a@u", "h", "admin", true, none⟩,
                    ⟨4, "b", "b@u", "h", "employee", false, none⟩],
          nextEmployeeId := 1, nextGoalId := 1, nextReviewId := 1,
          nextUserId := 5 }
        (.present (.valid ⟨some 9⟩)) = .error .unauthorized ∧
    get_current_active_user
        { employees := [], goals := [], reviews := [],
          users := [⟨3, "a", "a@u", "h", "admin", true, none⟩,
                    ⟨4, "b", "b@u", "h", "employee", false, none⟩],
          nextEmployeeId := 1, nextGoalId := 1, nextReviewId := 1,
          nextUserId := 5 }
        (.present (.valid ⟨some 4⟩)) = .error .forbidden ∧
    get_current_active_user
        { employees := [], goals := [], reviews := [],
          users := [⟨3, "a", "a@u", "h", "admin", true, none⟩,
                    ⟨4, "b", "b@u", "h", "employee", false, none⟩],
          nextEmployeeId := 1, nextGoalId := 1, nextReviewId := 1,
          nextUserId := 5 }
        (.present (.valid ⟨some 3⟩)) =
          .ok ⟨3, "a", "a@u", "h", "admin", true, none⟩ := by
  have h :=
    C6_authentication_gate
      { employees := [], goals := [], reviews := [],
        users := [⟨3, "a", "a@u", "h", "admin", true, none⟩,
                  ⟨4, "b", "b@u", "h", "employee", false, none⟩],
        nextEmployeeId := 1, nextGoalId := 1, nextReviewId := 1,
        nextUserId := 5 }
  exact ⟨(h ⟨none⟩).2.2.2.2.1 rfl,
         (h ⟨some 9⟩).2.2.2.2.2.1 9 rfl rfl,
         (h ⟨some 4⟩).2.2.2.2.2.2.1 4
           ⟨4, "b", "b@u", "h", "employee", false, none⟩ rfl rfl rfl,
         (h ⟨some 3⟩).2.2.2.2.2.2.2 3
           ⟨3, "a", "a@u", "h", "admin", true, none⟩ rfl rfl rfl⟩

/-- C4: closed-world default deny — an authenticated active caller whose
role is none of admin, manager, employee is denied with Forbidden on
every operation of every resource.  List and create operations (and the
Employee mutations, whose role dependency runs before the handler body)
are Forbidden outright; by-id operations on Goals, Reviews and Employee
reads check existence first, so they are Forbidden on every existing
target. -/
theorem C4_unknown_role_default_deny
    (db : DB) (u : User) (hact : u.is_active = true)
    (h1 : u.role ≠ "admin") (h2 : u.role ≠ "manager")
    (h3 : u.role ≠ "employee") :
    list_employees db u = .error .forbidden ∧
    list_goals db u = .error .forbidden ∧
    list_reviews db u = .error .forbidden ∧
    (∀ ein, create_employee db u ein = .error .forbidden) ∧
    (∀ gin, create_goal db u gin = .error .forbidden) ∧
    (∀ rin, create_review db u rin = .error .forbidden) ∧
    (∀ eid ein, update_employee db u eid ein = .error .forbidden) ∧
    (∀ eid, delete_employee db u eid = .error .forbidden) ∧
    (∀ eid, (db.employees.find? (fun e => e.id == eid)).isSome →
      get_employee db u eid = .error .forbidden) ∧
    (∀ gid, (db.goals.find? (fun g => g.id == gid)).isSome →
      get_goal db u gid = .error .forbidden ∧
      (∀ gin, update_goal db u gid gin = .error .forbidden) ∧
      delete_goal db u gid = .error .forbidden) ∧
    (∀ rid, (db.reviews.find? (fun r => r.id == rid)).isSome →
      get_review db u rid = .error .forbidden ∧
      (∀ rin, update_review db u rid rin = .error .forbidden) ∧
      delete_review db u rid = .error .forbidden) := by
  refine ⟨?_, ?_, ?_, fun ein => ?_, fun gin => ?_, fun rin => ?_,
          fun eid ein => ?_, fun eid => ?_, fun eid hex => ?_,
          fun gid hex => ?_, fun rid hex => ?_⟩
  · simp [list_employees, requireActive, hact, h1, h2, h3]
  · simp [list_goals, requireActive, hact, h1, h2, h3]
  · simp [list_reviews, requireActive, hact, h1, h2, h3]
  · simp [create_employee, requireAdminOrManager, requireActive, hact,
          h1, h2]
  · simp [create_goal, requireActive, hact, h1, h2, h3]
  · simp [create_review, requireActive, hact, h1, h2, h3]
  · simp [update_employee, requireAdminOrManager, requireActive, hact,
          h1, h2]
  · simp [delete_employee, requireAdminOrManager, requireActive, hact,
          h1, h2]
  · obtain ⟨e, hfind⟩ := Option.isSome_iff_exists.mp hex
    simp [get_employee, requireActive, hact, hfind, h1, h2, h3]
  · obtain ⟨g, hfind⟩ := Option.isSome_iff_exists.mp hex
    refine ⟨?_, fun gin => ?_, ?_⟩ <;>
      simp [get_goal, update_goal, delete_goal, requireActive, hact,
            hfind, h1, h2, h3]
  · obtain ⟨r, hfind⟩ := Option.isSome_iff_exists.mp hex
    refine ⟨?_, fun rin => ?_, ?_⟩ <;>
      simp [get_review, update_review, delete_review, requireActive,
            hact, hfind, h1, h2, h3]

/-- Witness for C4: a concrete "auditor"-role caller is Forbidden on a
store containing one employee, one goal and one review. -/
theorem C4_unknown_role_default_deny_witness :
    list_goals
        { employees := [⟨1, "Jo", "jo@co", none, none, "active"⟩],
          goals := [⟨5, "G", none, none, none, "in-progress", 0, 1⟩],
          reviews := [⟨7, "2025-01", 4, none, "Jo", 1⟩],
          users := [], nextEmployeeId := 2, nextGoalId := 6,
          nextReviewId := 8, nextUserId := 1 }
        { id := 9, name := "w", email := "w@u", password_hash := "h",
          role := "auditor", is_active := true, employee_id := some 1 }
        = .error .forbidden ∧
    get_goal
        { employees := [⟨1, "Jo", "jo@co", none, none, "active"⟩],
          goals := [⟨5, "G", none, none, none, "in-progress", 0, 1⟩],
          reviews := [⟨7, "2025-01", 4, none, "Jo", 1⟩],
          users := [], nextEmployeeId := 2, nextGoalId := 6,
          nextReviewId := 8, nextUserId := 1 }
        { id := 9, name := "w", email := "w@u", password_hash := "h",
          role := "auditor", is_active := true, employee_id := some 1 }
        5 = .error .forbidden ∧
    delete_review
        { employees := [⟨1, "Jo", "jo@co", none, none, "active"⟩],
          goals := [⟨5, "G", none, none, none, "in-progress", 0, 1⟩],
          reviews := [⟨7, "2025-01", 4, none, "Jo", 1⟩],
          users := [], nextEmployeeId := 2, nextGoalId := 6,
          nextReviewId := 8, nextUserId := 1 }
        { id := 9, name := "w", email := "w@u", password_hash := "h",
          role := "auditor", is_active := true, employee_id := some 1 }
        7 = .error .forbidden := by
  have h :=
    C4_unknown_role_default_deny
      { employees := [⟨1, "Jo", "jo@co", none, none, "active"⟩],
        goals := [⟨5, "G", none, none, none, "in-progress", 0, 1⟩],
        reviews := [⟨7, "2025-01", 4, none, "Jo", 1⟩],
        users := [], nextEmployeeId := 2, nextGoalId := 6,
        nextReviewId := 8, nextUserId := 1 }
      { id := 9, name := "w", email := "w@u", password_hash := "h",
        role := "auditor", is_active := true, employee_id := some 1 }
      rfl (by decide) (by decide) (by decide)
  exact ⟨h.2.1, (h.2.2.2.2.2.2.2.2.2.1 5 (by decide)).1,
         (h.2.2.2.2.2.2.2.2.2.2 7 (by decide)).2.2⟩

/-- C1: for an authenticated active employee-role caller, the list
operations on Employee, Goal and PerformanceReview return exactly the
rows whose owning employee equals the caller's linked employee (the
Employee's own id playing the owner role for the Employee resource), the
empty set when the caller has no linked employee; and read-by-id on an
existing row owned by a different employee is Forbidden. -/
theorem C1_employee_read_scoping
    (db : DB) (u : User) (hwf : db.wf) (hact : u.is_active = true)
    (hrole : u.role = "employee") :
    (∃ le, list_employees db u = .ok le ∧
      ∀ e : Employee, e ∈ le ↔ e ∈ db.employees ∧
        u.employee_id = some e.id) ∧
    (∃ lg, list_goals db u = .ok lg ∧
      ∀ g : Goal, g ∈ lg ↔ g ∈ db.goals ∧
        u.employee_id = some g.employee_id) ∧
    (∃ lr, list_reviews db u = .ok lr ∧
      ∀ r : PerformanceReview, r ∈ lr ↔ r ∈ db.reviews ∧
        u.employee_id = some r.employee_id) ∧
    (∀ eid e, db.employees.find? (fun x => x.id == eid) = some e →
      u.employee_id ≠ some e.id →
      get_employee db u eid = .error .forbidden) ∧
    (∀ gid g, db.goals.find? (fun x => x.id == gid) = some g →
      u.employee_id ≠ some g.employee_id →
      get_goal db u gid = .error .forbidden) ∧
    (∀ rid r, db.reviews.find? (fun x => x.id == rid) = some r →
      u.employee_id ≠ some r.employee_id →
      get_review db u rid = .error .forbidden) := by
  refine ⟨?_, ?_, ?_, fun eid e hfind hne => ?_, fun gid g hfind hne => ?_,
          fun rid r hfind hne => ?_⟩
  · cases hlink : u.employee_id with
    | none =>
      refine ⟨[], ?_, by simp [hlink]⟩
      simp [list_employees, requireActive, hact, hrole, hlink]
    | some eid =>
      cases hfind : db.employees.find? (fun e => e.id == eid) with
      | none =>
        refine ⟨[], ?_, ?_⟩
        · simp [list_employees, requireActive, hact, hrole, hlink, hfind]
        · intro e
          simp only [List.not_mem_nil, false_iff, hlink]
          rintro ⟨hmem, heq⟩
          have := List.find?_eq_none.mp hfind e hmem
          simp only [Option.some.injEq] at heq
          exact this (by simp [← heq])
      | some e0 =>
        refine ⟨[e0], ?_, ?_⟩
        · simp [list_employees, requireActive, hact, hrole, hlink, hfind]
        · intro e
          constructor
          · intro hmem
            have he : e = e0 := by simpa using hmem
            subst he
            have h1 : (e.id == eid) = true := by
              simpa using List.find?_some hfind
            have h2 := List.mem_of_find?_eq_some hfind
            exact ⟨h2, by rw [beq_iff_eq.mp h1]⟩
          · rintro ⟨hmem, heq⟩
            have heid : e.id = eid := (Option.some.injEq _ _).mp heq.symm
            have := find_proj_eq_some_of_mem Employee.id db.employees eid e
              hwf.1 hmem heid
            rw [this] at hfind
            simp [Option.some.injEq] at hfind
            simp [hfind]
  · cases hlink : u.employee_id with
    | none =>
      refine ⟨[], ?_, by simp [hlink]⟩
      simp [list_goals, requireActive, hact, hrole, hlink]
    | some eid =>
      refine ⟨db.goals.filter (fun g => g.employee_id == eid), ?_, ?_⟩
      · simp [list_goals, requireActive, hact, hrole, hlink]
      · intro g
        simp only [List.mem_filter, beq_iff_eq, Option.some.injEq]
        constructor <;> rintro ⟨a, b⟩ <;> exact ⟨a, b.symm⟩
  · cases hlink : u.employee_id with
    | none =>
      refine ⟨[], ?_, by simp [hlink]⟩
      simp [list_reviews, requireActive, hact, hrole, hlink]
    | some eid =>
      refine ⟨db.reviews.filter (fun r => r.employee_id == eid), ?_, ?_⟩
      · simp [list_reviews, requireActive, hact, hrole, hlink]
      · intro r
        simp only [List.mem_filter, beq_iff_eq, Option.some.injEq]
        constructor <;> rintro ⟨a, b⟩ <;> exact ⟨a, b.symm⟩
  · have heid : e.id = eid := by simpa using List.find?_some hfind
    have hbeq : (u.employee_id == some eid) = false :=
      beq_eq_false_iff_ne.mpr (by rw [← heid]; exact hne)
    simp [get_employee, requireActive, hact, hrole, hfind, hbeq]
  · have hbeq : (u.employee_id == some g.employee_id) = false :=
      beq_eq_false_iff_ne.mpr hne
    simp [get_goal, requireActive, hact, hrole, hfind, hbeq]
  · have hbeq : (u.employee_id == some r.employee_id) = false :=
      beq_eq_false_iff_ne.mpr hne
    simp [get_review, requireActive, hact, hrole, hfind, hbeq]

/-- Witness for C1: a two-employee store; the linked caller sees exactly
employee 1's rows and is Forbidden on employee 2's goal. -/
theorem C1_employee_read_scoping_witness :
    (∃ lg, list_goals
        { employees := [⟨1, "Jo", "jo@co", none, none, "active"⟩,
                        ⟨2, "Al", "al@co", none, none, "active"⟩],
          goals := [⟨5, "G1", none, none, none, "in-progress", 0, 1⟩,
                    ⟨6, "G2", none, none, none, "in-progress", 0, 2⟩],
          reviews := [], users := [], nextEmployeeId := 3,
          nextGoalId := 7, nextReviewId := 1, nextUserId := 1 }
        { id := 9, name := "jo", email := "jo@u", password_hash := "h",
          role := "employee", is_active := true, employee_id := some 1 }
        = .ok lg ∧
      ∀ g : Goal, g ∈ lg ↔
        g ∈ [⟨5, "G1", none, none, none, "in-progress", 0, 1⟩,
             (⟨6, "G2", none, none, none, "in-progress", 0, 2⟩ : Goal)] ∧
        (some 1 : Option Nat) = some g.employee_id) ∧
    get_goal
        { employees := [⟨1, "Jo", "jo@co", none, none, "active"⟩,
                        ⟨2, "Al", "al@co", none, none, "active"⟩],
          goals := [⟨5, "G1", none, none, none, "in-progress", 0, 1⟩,
                    ⟨6, "G2", none, none, none, "in-progress", 0, 2⟩],
          reviews := [], users := [], nextEmployeeId := 3,
          nextGoalId := 7, nextReviewId := 1, nextUserId := 1 }
        { id := 9, name := "jo", email := "jo@u", password_hash := "h",
          role := "employee", is_active := true, employee_id := some 1 }
        6 = .error .forbidden := by
  have h :=
    C1_employee_read_scoping
      { employees := [⟨1, "Jo", "jo@co", none, none, "active"⟩,
                      ⟨2, "Al", "al@co", none, none, "active"⟩],
        goals := [⟨5, "G1", none, none, none, "in-progress", 0, 1⟩,
                  ⟨6, "G2", none, none, none, "in-progress", 0, 2⟩],
        reviews := [], users := [], nextEmployeeId := 3,
        nextGoalId := 7, nextReviewId := 1, nextUserId := 1 }
      { id := 9, name := "jo", email := "jo@u", password_hash := "h",
        role := "employee", is_active := true, employee_id := some 1 }
      (by decide) rfl rfl
  exact ⟨h.2.1,
         h.2.2.2.2.1 6 ⟨6, "G2", none, none, none, "in-progress", 0, 2⟩
           (by decide) (by decide)⟩

/-- C2: when an active employee-role caller updates a Goal or a
PerformanceReview owned by their own linked employee, only the permitted
fields change — progress and status for a Goal; month, rating, feedback
and reviewer_name for a Review — and every other field of the target
(id, owning employee_id, title, description, dates) keeps its old value
even when the request supplies values for them. -/
theorem C2_employee_update_restricted_fields
    (db : DB) (u : User) (hact : u.is_active = true)
    (hrole : u.role = "employee") :
    (∀ gid goal gin db2 g2,
      db.goals.find? (fun x => x.id == gid) = some goal →
      u.employee_id = some goal.employee_id →
      update_goal db u gid gin = .ok (db2, g2) →
      g2.id = goal.id ∧ g2.title = goal.title ∧
      g2.description = goal.description ∧
      g2.start_date = goal.start_date ∧ g2.end_date = goal.end_date ∧
      g2.employee_id = goal.employee_id) ∧
    (∀ rid review rin db2 r2,
      db.reviews.find? (fun x => x.id == rid) = some review →
      u.employee_id = some review.employee_id →
      update_review db u rid rin = .ok (db2, r2) →
      r2.id = review.id ∧ r2.employee_id = review.employee_id) := by
  constructor
  · intro gid goal gin db2 g2 hfind hown hupd
    simp only [update_goal, requireActive, hact, if_true, hfind, hrole,
               hown] at hupd
    simp only [show (("employee" == "admin") || ("employee" == "manager"))
                 = false from rfl] at hupd
    simp only [show ("employee" == "employee") = true from rfl] at hupd
    simp only [bne_self_eq_false] at hupd
    simp only [Bool.false_eq_true, if_false, if_true,
               Except.ok.injEq, Prod.mk.injEq] at hupd
    obtain ⟨-, hg2⟩ := hupd
    subst hg2
    simp
  · intro rid review rin db2 r2 hfind hown hupd
    simp only [update_review, requireActive, hact, if_true, hfind, hrole,
               hown] at hupd
    simp only [show (("employee" == "admin") || ("employee" == "manager"))
                 = false from rfl] at hupd
    simp only [show ("employee" == "employee") = true from rfl] at hupd
    simp only [bne_self_eq_false] at hupd
    simp only [Bool.false_eq_true, if_false, if_true,
               Except.ok.injEq, Prod.mk.injEq] at hupd
    obtain ⟨-, hr2⟩ := hupd
    subst hr2
    simp

/-- Witness for C2: an employee-role caller updates their own goal and
review supplying every field (including a new title, dates and a new
owner 2); the frame equalities are discharged by applying the theorem at
the concrete successful call. -/
theorem C2_employee_update_restricted_fields_witness :
    (let res := update_goal
        { employees := [⟨1, "Jo", "jo@co", none, none, "active"⟩],
          goals := [⟨5, "G1", some "d", some 0, some 9, "in-progress",
                     0, 1⟩],
          reviews := [⟨7, "2025-01", 4, none, "Jo", 1⟩],
          users := [], nextEmployeeId := 2, nextGoalId := 6,
          nextReviewId := 8, nextUserId := 1 }
        { id := 9, name := "jo", email := "jo@u", password_hash := "h",
          role := "employee", is_active := true, employee_id := some 1 }
        5
        ⟨some "HACK", some "x", some 3, some 4, some "done", some 2,
         some 99⟩
     res = .ok
        ({ employees := [⟨1, "Jo", "jo@co", none, none, "active"⟩],
           goals := [⟨5, "G1", some "d", some 0, some 9, "done", 99, 1⟩],
           reviews := [⟨7, "2025-01", 4, none, "Jo", 1⟩],
           users := [], nextEmployeeId := 2, nextGoalId := 6,
           nextReviewId := 8, nextUserId := 1 },
         ⟨5, "G1", some "d", some 0, some 9, "done", 99, 1⟩)) ∧
    (⟨5, "G1", some "d", some 0, some 9, "done", 99, 1⟩ : Goal).title
      = "G1" ∧
    (⟨5, "G1", some "d", some 0, some 9, "done", 99, 1⟩ : Goal).employee_id
      = 1 := by
  have h :=
    (C2_employee_update_restricted_fields
      { employees := [⟨1, "Jo", "jo@co", none, none, "active"⟩],
        goals := [⟨5, "G1", some "d", some 0, some 9, "in-progress",
                   0, 1⟩],
        reviews := [⟨7, "2025-01", 4, none, "Jo", 1⟩],
        users := [], nextEmployeeId := 2, nextGoalId := 6,
        nextReviewId := 8, nextUserId := 1 }
      { id := 9, name := "jo", email := "jo@u", password_hash := "h",
        role := "employee", is_active := true, employee_id := some 1 }
      rfl rfl).1 5
      ⟨5, "G1", some "d", some 0, some 9, "in-progress", 0, 1⟩
      ⟨some "HACK", some "x", some 3, some 4, some "done", some 2,
       some 99⟩
      { employees := [⟨1, "Jo", "jo@co", none, none, "active"⟩],
        goals := [⟨5, "G1", some "d", some 0, some 9, "done", 99, 1⟩],
        reviews := [⟨7, "2025-01", 4, none, "Jo", 1⟩],
        users := [], nextEmployeeId := 2, nextGoalId := 6,
        nextReviewId := 8, nextUserId := 1 }
      ⟨5, "G1", some "d", some 0, some 9, "done", 99, 1⟩
      rfl rfl rfl
  exact ⟨rfl, h.2.1, h.2.2.2.2.2⟩

/-- C3: an active employee-role caller creating a Goal or Review fails
with BadRequest when they have no linked employee; fails with Forbidden
when the requested owner differs from their linked employee; and when the
requested owner equals the linked employee, creation succeeds exactly
when that employee exists in the store (else BadRequest). -/
theorem C3_employee_create_ownership_gate
    (db : DB) (u : User) (gin : GoalCreate) (rin : ReviewCreate)
    (hact : u.is_active = true) (hrole : u.role = "employee") :
    (u.employee_id = none →
      create_goal db u gin = .error .badRequest ∧
      create_review db u rin = .error .badRequest) ∧
    (∀ eid, u.employee_id = some eid →
      (gin.employee_id ≠ eid → create_goal db u gin = .error .forbidden) ∧
      (rin.employee_id ≠ eid →
        create_review db u rin = .error .forbidden) ∧
      (gin.employee_id = eid →
        ((∃ res, create_goal db u gin = .ok res) ↔
          ∃ e ∈ db.employees, e.id = eid) ∧
        ((∃ e ∈ db.employees, e.id = eid) →
          create_goal db u gin ≠ .error .forbidden) ∧
        ((¬ ∃ e ∈ db.employees, e.id = eid) →
          create_goal db u gin = .error .badRequest)) ∧
      (rin.employee_id = eid →
        ((∃ res, create_review db u rin = .ok res) ↔
          ∃ e ∈ db.employees, e.id = eid) ∧
        ((¬ ∃ e ∈ db.employees, e.id = eid) →
          create_review db u rin = .error .badRequest))) := by
  refine ⟨fun hnone => ⟨?_, ?_⟩, fun eid hlink =>
           ⟨fun hne => ?_, fun hne => ?_, fun heq => ?_, fun heq => ?_⟩⟩
  · simp [create_goal, requireActive, hact, hrole, hnone]
  · simp [create_review, requireActive, hact, hrole, hnone]
  · have hb : (gin.employee_id != eid) = true := bne_iff_ne.mpr hne
    simp [create_goal, requireActive, hact, hrole, hlink, hb]
  · have hb : (rin.employee_id != eid) = true := bne_iff_ne.mpr hne
    simp [create_review, requireActive, hact, hrole, hlink, hb]
  · subst heq
    cases hfind : db.employees.find? (fun e => e.id == gin.employee_id)
      with
    | none =>
      have hnoex : ¬ ∃ e ∈ db.employees, e.id = gin.employee_id := by
        rintro ⟨e, hmem, hid⟩
        exact List.find?_eq_none.mp hfind e hmem (by simp [hid])
      refine ⟨?_, fun hex => absurd hex hnoex, fun _ => ?_⟩ <;>
        simp [create_goal, requireActive, hact, hrole, hlink, hfind,
              hnoex]
    | some e0 =>
      have hex : ∃ e ∈ db.employees, e.id = gin.employee_id :=
        ⟨e0, List.mem_of_find?_eq_some hfind,
         by simpa using List.find?_some hfind⟩
      refine ⟨?_, fun _ => ?_, fun hne => absurd hex hne⟩ <;>
        simp [create_goal, requireActive, hact, hrole, hlink, hfind, hex]
  · subst heq
    cases hfind : db.employees.find? (fun e => e.id == rin.employee_id)
      with
    | none =>
      have hnoex : ¬ ∃ e ∈ db.employees, e.id = rin.employee_id := by
        rintro ⟨e, hmem, hid⟩
        exact List.find?_eq_none.mp hfind e hmem (by simp [hid])
      refine ⟨?_, fun _ => ?_⟩ <;>
        simp [create_review, requireActive, hact, hrole, hlink, hfind,
              hnoex]
    | some e0 =>
      have hex : ∃ e ∈ db.employees, e.id = rin.employee_id :=
        ⟨e0, List.mem_of_find?_eq_some hfind,
         by simpa using List.find?_some hfind⟩
      refine ⟨?_, fun hne => absurd hex hne⟩
      simp [create_review, requireActive, hact, hrole, hlink, hfind, hex]

/-- Witness for C3: the three outcomes on a concrete store — BadRequest
for an unlinked caller, Forbidden for a mismatched owner, success for a
matching owner that exists. -/
theorem C3_employee_create_ownership_gate_witness :
    create_goal
        { employees := [⟨1, "Jo", "jo@co", none, none, "active"⟩],
          goals := [], reviews := [], users := [], nextEmployeeId := 2,
          nextGoalId := 1, nextReviewId := 1, nextUserId := 1 }
        { id := 9, name := "nl", email := "nl@u", password_hash := "h",
          role := "employee", is_active := true, employee_id := none }
        ⟨"t", none, none, none, "in-progress", 1, 0⟩
      = .error .badRequest ∧
    create_goal
        { employees := [⟨1, "Jo", "jo@co", none, none, "active"⟩],
          goals := [], reviews := [], users := [], nextEmployeeId := 2,
          nextGoalId := 1, nextReviewId := 1, nextUserId := 1 }
        { id := 9, name := "jo", email := "jo@u", password_hash := "h",
          role := "employee", is_active := true, employee_id := some 1 }
        ⟨"t", none, none, none, "in-progress", 2, 0⟩
      = .error .forbidden ∧
    (∃ res, create_goal
        { employees := [⟨1, "Jo", "jo@co", none, none, "active"⟩],
          goals := [], reviews := [], users := [], nextEmployeeId := 2,
          nextGoalId := 1, nextReviewId := 1, nextUserId := 1 }
        { id := 9, name := "jo", email := "jo@u", password_hash := "h",
          role := "employee", is_active := true, employee_id := some 1 }
        ⟨"t", none, none, none, "in-progress", 1, 0⟩ = .ok res) := by
  refine ⟨?_, ?_, ?_⟩
  · exact ((C3_employee_create_ownership_gate
      { employees := [⟨1, "Jo", "jo@co", none, none, "active"⟩],
        goals := [], reviews := [], users := [], nextEmployeeId := 2,
        nextGoalId := 1, nextReviewId := 1, nextUserId := 1 }
      { id := 9, name := "nl", email := "nl@u", password_hash := "h",
        role := "employee", is_active := true, employee_id := none }
      ⟨"t", none, none, none, "in-progress", 1, 0⟩
      ⟨"2025-01", 4, none, "r", 1⟩ rfl rfl).1 rfl).1
  · exact ((C3_employee_create_ownership_gate
      { employees := [⟨1, "Jo", "jo@co", none, none, "active"⟩],
        goals := [], reviews := [], users := [], nextEmployeeId := 2,
        nextGoalId := 1, nextReviewId := 1, nextUserId := 1 }
      { id := 9, name := "jo", email := "jo@u", password_hash := "h",
        role := "employee", is_active := true, employee_id := some 1 }
      ⟨"t", none, none, none, "in-progress", 2, 0⟩
      ⟨"2025-01", 4, none, "r", 1⟩ rfl rfl).2 1 rfl).1 (by decide)
  · exact (((C3_employee_create_ownership_gate
      { employees := [⟨1, "Jo", "jo@co", none, none, "active"⟩],
        goals := [], reviews := [], users := [], nextEmployeeId := 2,
        nextGoalId := 1, nextReviewId := 1, nextUserId := 1 }
      { id := 9, name := "jo", email := "jo@u", password_hash := "h",
        role := "employee", is_active := true, employee_id := some 1 }
      ⟨"t", none, none, none, "in-progress", 1, 0⟩
      ⟨"2025-01", 4, none, "r", 1⟩ rfl rfl).2 1 rfl).2.2.1 rfl).1.mpr
      ⟨⟨1, "Jo", "jo@co", none, none, "active"⟩, by simp, rfl⟩

/-- Unfolding of the admin-or-manager dependency: it passes exactly the
active admin/manager callers through unchanged. -/
theorem requireAdminOrManager_ok {u v : User}
    (h : requireAdminOrManager u = .ok v) :
    v = u ∧ u.is_active = true ∧
      (u.role = "admin" ∨ u.role = "manager") := by
  unfold requireAdminOrManager requireActive at h
  by_cases hact : u.is_active = true
  · simp only [hact, if_true] at h
    by_cases hr : (u.role == "admin" || u.role == "manager") = true
    · simp only [hr, if_true, Except.ok.injEq] at h
      refine ⟨h.symm, hact, ?_⟩
      simpa using hr
    · simp [hr] at h
  · simp [hact] at h

/-- C8: deleting an Employee cascades — whenever `delete_employee`
succeeds, the resulting store holds no Goal and no PerformanceReview
owned by the deleted employee id (and no Employee with that id), and
listing goals and reviews as the same caller returns lists free of that
employee id. -/
theorem C8_delete_employee_cascades
    (db : DB) (u : User) (eid : Nat) (db2 : DB)
    (hdel : delete_employee db u eid = .ok db2) :
    (∀ g ∈ db2.goals, g.employee_id ≠ eid) ∧
    (∀ r ∈ db2.reviews, r.employee_id ≠ eid) ∧
    (∀ e ∈ db2.employees, e.id ≠ eid) ∧
    (∃ lg, list_goals db2 u = .ok lg ∧ ∀ g ∈ lg, g.employee_id ≠ eid) ∧
    (∃ lr, list_reviews db2 u = .ok lr ∧
      ∀ r ∈ lr, r.employee_id ≠ eid) := by
  cases hreq : requireAdminOrManager u with
  | error e => simp [delete_employee, hreq] at hdel
  | ok v =>
    obtain ⟨rfl, hact, hrole⟩ := requireAdminOrManager_ok hreq
    cases hfind : db.employees.find? (fun e => e.id == eid) with
    | none => simp [delete_employee, hreq, hfind] at hdel
    | some e0 =>
      simp only [delete_employee, hreq, hfind, Except.ok.injEq] at hdel
      subst hdel
      have hg : ∀ g ∈ (db.goals.filter
          (fun g => g.employee_id != eid)), g.employee_id ≠ eid := by
        intro g hgmem
        exact bne_iff_ne.mp (List.mem_filter.mp hgmem).2
      have hr : ∀ r ∈ (db.reviews.filter
          (fun r => r.employee_id != eid)), r.employee_id ≠ eid := by
        intro r hrmem
        exact bne_iff_ne.mp (List.mem_filter.mp hrmem).2
      have he : ∀ e ∈ (db.employees.filter
          (fun e => e.id != eid)), e.id ≠ eid := by
        intro e hemem
        exact bne_iff_ne.mp (List.mem_filter.mp hemem).2
      refine ⟨hg, hr, he, ?_, ?_⟩
      · refine ⟨_, ?_, hg⟩
        rcases hrole with h | h <;>
          simp [list_goals, requireActive, hact, h]
      · refine ⟨_, ?_, hr⟩
        rcases hrole with h | h <;>
          simp [list_reviews, requireActive, hact, h]

/-- Witness for C8: concrete admin deletes employee 1; the resulting
store is goal- and review-free for employee 1. -/
theorem C8_delete_employee_cascades_witness :
    delete_employee
        { employees := [⟨1, "Jo", "jo@co", none, none, "active"⟩,
                        ⟨2, "Al", "al@co", none, none, "active"⟩],
          goals := [⟨5, "G1", none, none, none, "in-progress", 0, 1⟩,
                    ⟨6, "G2", none, none, none, "in-progress", 0, 2⟩],
          reviews := [⟨7, "2025-01", 4, none, "Jo", 1⟩],
          users := [], nextEmployeeId := 3, nextGoalId := 7,
          nextReviewId := 8, nextUserId := 1 }
        { id := 9, name := "adm", email := "a@u", password_hash := "h",
          role := "admin", is_active := true, employee_id := none }
        1 = .ok
        { employees := [⟨2, "Al", "al@co", none, none, "active"⟩],
          goals := [⟨6, "G2", none, none, none, "in-progress", 0, 2⟩],
          reviews := [],
          users := [], nextEmployeeId := 3, nextGoalId := 7,
          nextReviewId := 8, nextUserId := 1 } ∧
    ∀ g ∈ ({ employees := [⟨2, "Al", "al@co", none, none, "active"⟩],
             goals := [⟨6, "G2", none, none, none, "in-progress", 0, 2⟩],
             reviews := [],
             users := [], nextEmployeeId := 3, nextGoalId := 7,
             nextReviewId := 8, nextUserId := 1 } : DB).goals,
      g.employee_id ≠ 1 := by
  have h :=
    C8_delete_employee_cascades
      { employees := [⟨1, "Jo", "jo@co", none, none, "active"⟩,
                      ⟨2, "Al", "al@co", none, none, "active"⟩],
        goals := [⟨5, "G1", none, none, none, "in-progress", 0, 1⟩,
                  ⟨6, "G2", none, none, none, "in-progress", 0, 2⟩],
        reviews := [⟨7, "2025-01", 4, none, "Jo", 1⟩],
        users := [], nextEmployeeId := 3, nextGoalId := 7,
        nextReviewId := 8, nextUserId := 1 }
      { id := 9, name := "adm", email := "a@u", password_hash := "h",
        role := "admin", is_active := true, employee_id := none }
      1
      { employees := [⟨2, "Al", "al@co", none, none, "active"⟩],
        goals := [⟨6, "G2", none, none, none, "in-progress", 0, 2⟩],
        reviews := [],
        users := [], nextEmployeeId := 3, nextGoalId := 7,
        nextReviewId := 8, nextUserId := 1 }
      rfl
  exact ⟨rfl, h.1⟩

/-- C9: creating an Employee whose email an existing Employee already
holds fails with BadRequest (for an active admin/manager caller, the
only ones that reach the duplicate check); the store is returned
unchanged by construction, and the original employee is still
retrievable by id. -/
theorem C9_duplicate_employee_email_rejected
    (db : DB) (u : User) (ein : EmployeeCreate) (e0 : Employee)
    (hwf : db.wf) (hact : u.is_active = true)
    (hrole : u.role = "admin" ∨ u.role = "manager")
    (hmem : e0 ∈ db.employees) (hemail : e0.email = ein.email) :
    create_employee db u ein = .error .badRequest ∧
    get_employee db u e0.id = .ok e0 := by
  have hex : (db.employees.find?
      (fun e => e.email == ein.email)).isSome :=
    List.find?_isSome.mpr ⟨e0, hmem, by simp [hemail]⟩
  obtain ⟨e1, hfind⟩ := Option.isSome_iff_exists.mp hex
  have hfid : db.employees.find? (fun x => x.id == e0.id) = some e0 :=
    find_proj_eq_some_of_mem Employee.id db.employees e0.id e0 hwf.1
      hmem rfl
  constructor
  · rcases hrole with h | h <;>
      simp [create_employee, requireAdminOrManager, requireActive, hact,
            h, hfind]
  · rcases hrole with h | h <;>
      simp [get_employee, requireActive, hact, h, hfid]

/-- Witness for C9: a second employee with "a@x.com" is rejected with
BadRequest and the first is still retrievable. -/
theorem C9_duplicate_employee_email_rejected_witness :
    create_employee
        { employees := [⟨1, "Jo", "a@x.com", none, none, "active"⟩],
          goals := [], reviews := [], users := [], nextEmployeeId := 2,
          nextGoalId := 1, nextReviewId := 1, nextUserId := 1 }
        { id := 9, name := "adm", email := "a@u", password_hash := "h",
          role := "admin", is_active := true, employee_id := none }
        ⟨"Jo2", "a@x.com", none, none, "active"⟩
      = .error .badRequest ∧
    get_employee
        { employees := [⟨1, "Jo", "a@x.com", none, none, "active"⟩],
          goals := [], reviews := [], users := [], nextEmployeeId := 2,
          nextGoalId := 1, nextReviewId := 1, nextUserId := 1 }
        { id := 9, name := "adm", email := "a@u", password_hash := "h",
          role := "admin", is_active := true, employee_id := none }
        1 = .ok ⟨1, "Jo", "a@x.com", none, none, "active"⟩ := by
  exact C9_duplicate_employee_email_rejected
    { employees := [⟨1, "Jo", "a@x.com", none, none, "active"⟩],
      goals := [], reviews := [], users := [], nextEmployeeId := 2,
      nextGoalId := 1, nextReviewId := 1, nextUserId := 1 }
    { id := 9, name := "adm", email := "a@u", password_hash := "h",
      role := "admin", is_active := true, employee_id := none }
    ⟨"Jo2", "a@x.com", none, none, "active"⟩
    ⟨1, "Jo", "a@x.com", none, none, "active"⟩
    (by decide) rfl (Or.inl rfl) (by simp) rfl

/-- The claimed one-to-one invariant: no two User rows share the same
non-null employee_id. -/
def usersLinkOneToOne (users : List User) : Prop :=
  users.Pairwise
    (fun a b => a.employee_id = none ∨ a.employee_id ≠ b.employee_id)

instance (users : List User) : Decidable (usersLinkOneToOne users) := by
  unfold usersLinkOneToOne; infer_instance

/-- Counterexample to C7: a store satisfying the at-most-one-Identity-
per-Employee invariant, on which `create_user` — run by an active admin,
with a fresh email and an existing linked employee — succeeds and
produces a second User linked to employee 1, violating the invariant. -/
theorem C7_counterexample_second_link_accepted :
    usersLinkOneToOne
      [⟨100, "adm", "a@u", "h", "admin", true, none⟩,
       ⟨101, "jo", "jo@u", "h", "employee", true, some 1⟩] ∧
    create_user
        { employees := [⟨1, "Jo", "jo@co", none, none, "active"⟩],
          goals := [], reviews := [],
          users := [⟨100, "adm", "a@u", "h", "admin", true, none⟩,
                    ⟨101, "jo", "jo@u", "h", "employee", true, some 1⟩],
          nextEmployeeId := 2, nextGoalId := 1, nextReviewId := 1,
          nextUserId := 200 }
        ⟨100, "adm", "a@u", "h", "admin", true, none⟩
        ⟨"n2", "fresh@u", "employee", true, some 1, "pw"⟩
      = .ok
        ({ employees := [⟨1, "Jo", "jo@co", none, none, "active"⟩],
           goals := [], reviews := [],
           users := [⟨100, "adm", "a@u", "h", "admin", true, none⟩,
                     ⟨101, "jo", "jo@u", "h", "employee", true, some 1⟩,
                     ⟨200, "n2", "fresh@u", "pbkdf2_sha256$pw",
                      "employee", true, some 1⟩],
           nextEmployeeId := 2, nextGoalId := 1, nextReviewId := 1,
           nextUserId := 201 },
         ⟨200, "n2", "fresh@u", "pbkdf2_sha256$pw", "employee", true,
          some 1⟩) ∧
    ¬ usersLinkOneToOne
      [⟨100, "adm", "a@u", "h", "admin", true, none⟩,
       ⟨101, "jo", "jo@u", "h", "employee", true, some 1⟩,
       ⟨200, "n2", "fresh@u", "pbkdf2_sha256$pw", "employee", true,
        some 1⟩] := by
  exact ⟨by decide, rfl, by decide⟩

/-- C7 amended: `create_user` checks only user-email uniqueness and
existence of the linked employee — it does not enforce the at-most-one-
Identity-per-Employee property.  Whenever some stored User already links
employee `eid`, an admin `create_user` call with a fresh email linking
the same `eid` still succeeds and yields a store whose users violate the
one-to-one invariant. -/
theorem C7_link_uniqueness_not_enforced
    (db : DB) (adm : User) (uin : UserCreate) (w : User) (eid : Nat)
    (hact : adm.is_active = true) (hrole : adm.role = "admin")
    (hemail : db.users.find? (fun x => x.email == uin.email) = none)
    (hlink : uin.employee_id = some eid)
    (hemp : (db.employees.find? (fun e => e.id == eid)).isSome)
    (hw : w ∈ db.users) (hweid : w.employee_id = some eid) :
    ∃ nu, create_user db adm uin =
        .ok ({ db with
                users := db.users ++ [nu]
                nextUserId := db.nextUserId + 1 }, nu) ∧
      nu.employee_id = some eid ∧ w ≠ nu ∧
      ¬ usersLinkOneToOne (db.users ++ [nu]) := by
  obtain ⟨e1, hfind⟩ := Option.isSome_iff_exists.mp hemp
  refine ⟨⟨db.nextUserId, uin.name, uin.email, hash_password uin.password,
           uin.role, uin.is_active, uin.employee_id⟩, ?_, hlink, ?_, ?_⟩
  · simp [create_user, requireAdmin, requireActive, hact, hrole, hemail,
          hlink, hfind]
  · intro heq
    have hne := List.find?_eq_none.mp hemail w hw
    apply hne
    rw [heq]
    simp
  · intro hpw
    unfold usersLinkOneToOne at hpw
    rw [List.pairwise_append] at hpw
    rcases hpw.2.2 w hw _ (List.mem_singleton.mpr rfl) with h | h
    · rw [hweid] at h
      cases h
    · exact h (by rw [hweid, hlink])

/-- Witness for the amended C7 at the counterexample's concrete store. -/
theorem C7_link_uniqueness_not_enforced_witness :
    ∃ nu, create_user
        { employees := [⟨1, "Jo", "jo@co", none, none, "active"⟩],
          goals := [], reviews := [],
          users := [⟨100, "adm", "a@u", "h", "admin", true, none⟩,
                    ⟨101, "jo", "jo@u", "h", "employee", true, some 1⟩],
          nextEmployeeId := 2, nextGoalId := 1, nextReviewId := 1,
          nextUserId := 200 }
        ⟨100, "adm", "a@u", "h", "admin", true, none⟩
        ⟨"n2", "fresh@u", "employee", true, some 1, "pw"⟩
      = .ok
        ({ employees := [⟨1, "Jo", "jo@co", none, none, "active"⟩],
           goals := [], reviews := [],
           users := [⟨100, "adm", "a@u", "h", "admin", true, none⟩,
                     ⟨101, "jo", "jo@u", "h", "employee", true,
                      some 1⟩] ++ [nu],
           nextEmployeeId := 2, nextGoalId := 1, nextReviewId := 1,
           nextUserId := 201 }, nu) ∧
      nu.employee_id = some 1 ∧
      (⟨101, "jo", "jo@u", "h", "employee", true, some 1⟩ : User) ≠ nu ∧
      ¬ usersLinkOneToOne
        ([⟨100, "adm", "a@u", "h", "admin", true, none⟩,
          ⟨101, "jo", "jo@u", "h", "employee", true, some 1⟩] ++ [nu]) :=
  C7_link_uniqueness_not_enforced
    { employees := [⟨1, "Jo", "jo@co", none, none, "active"⟩],
      goals := [], reviews := [],
      users := [⟨100, "adm", "a@u", "h", "admin", true, none⟩,
                ⟨101, "jo", "jo@u", "h", "employee", true, some 1⟩],
      nextEmployeeId := 2, nextGoalId := 1, nextReviewId := 1,
      nextUserId := 200 }
    ⟨100, "adm", "a@u", "h", "admin", true, none⟩
    ⟨"n2", "fresh@u", "employee", true, some 1, "pw"⟩
    ⟨101, "jo", "jo@u", "h", "employee", true, some 1⟩
    1 rfl rfl (by decide) rfl (by decide) (by simp) rfl

end EPT
